import Mathlib

/-!
Verification of the BlueTit particle-storage (ttdb) binding layer.

The definitions below are a shallow embedding of the Python binding in
`source/ttdb/ttdb.py` (and its twin `source/titsdk/ttdb.py`, which is
line-for-line identical on everything modelled here).  The native engine
(`libttdb.so`) is not part of the repository sources; where its behaviour
decides a claim, the corresponding definition is modelled from the spec and
says so in its doc comment.

Python exceptions are embedded as `Except PyError`; the ctypes "bytes | None"
results of the native calls are embedded as `Option String`.
-/

namespace TTDB

/-- Python exceptions that the binding layer can raise:
`Error` (the SDK's RuntimeError subclass, carrying the decoded last-error
string), `ValueError` (failed Enum-by-value construction, carrying the
offending value's text), and `KeyError` (failed dict lookup). -/
inductive PyError where
  | sdkError (msg : String)
  | valueError (val : String)
  | keyError
deriving DecidableEq, Repr

/-- The `Kind` enum of `ttdb.py`: kind of data in an array. -/
inductive Kind where
  | unknown
  | int8
  | uint8
  | int16
  | uint16
  | int32
  | uint32
  | int64
  | uint64
  | float32
  | float64
deriving DecidableEq, Repr

/-- The string value attached to each `Kind` enum member in `ttdb.py`
(e.g. `int8 = "int8_t"`). -/
def Kind.value : Kind → String
  | .unknown => "unknown"
  | .int8 => "int8_t"
  | .uint8 => "uint8_t"
  | .int16 => "int16_t"
  | .uint16 => "uint16_t"
  | .int32 => "int32_t"
  | .uint32 => "uint32_t"
  | .int64 => "int64_t"
  | .uint64 => "uint64_t"
  | .float32 => "float32_t"
  | .float64 => "float64_t"

/-- All members of the `Kind` enum, in declaration order. -/
def Kind.members : List Kind :=
  [.unknown, .int8, .uint8, .int16, .uint16, .int32, .uint32, .int64,
   .uint64, .float32, .float64]

/-- Python `Kind(s)`: enum lookup by value.  Returns the member whose value
string equals `s`, or `none` when no member matches (Python raises
`ValueError` in that case). -/
def Kind.ofValue (s : String) : Option Kind :=
  Kind.members.find? (fun k => k.value == s)

/-- NumPy scalar dtypes used by `Kind.to_numpy`. -/
inductive NumpyDtype where
  | np_int8
  | np_uint8
  | np_int16
  | np_uint16
  | np_int32
  | np_uint32
  | np_int64
  | np_uint64
  | np_float32
  | np_float64
deriving DecidableEq, Repr

/-- `np.dtype(...).itemsize`: width in bytes of each NumPy dtype. -/
def NumpyDtype.itemsize : NumpyDtype → Nat
  | .np_int8 => 1
  | .np_uint8 => 1
  | .np_int16 => 2
  | .np_uint16 => 2
  | .np_int32 => 4
  | .np_uint32 => 4
  | .np_int64 => 8
  | .np_uint64 => 8
  | .np_float32 => 4
  | .np_float64 => 8

/-- `Kind.to_numpy` from `ttdb.py`: the `kind_to_type` dict literal.  The dict
has entries for the ten numeric kinds only; `Kind.unknown` is absent, so
`kind_to_type[self]` raises `KeyError` for it — embedded as `none`. -/
def Kind.to_numpy : Kind → Option NumpyDtype
  | .unknown => none
  | .int8 => some .np_int8
  | .uint8 => some .np_uint8
  | .int16 => some .np_int16
  | .uint16 => some .np_uint16
  | .int32 => some .np_int32
  | .uint32 => some .np_uint32
  | .int64 => some .np_int64
  | .uint64 => some .np_uint64
  | .float32 => some .np_float32
  | .float64 => some .np_float64

/-- Element width in bytes of a numeric kind (0 for `unknown`).  This is the
`element_width` of the spec: the byte width of the NumPy type mapped from
the kind. -/
def element_width (k : Kind) : Nat :=
  match k.to_numpy with
  | some dt => dt.itemsize
  | none => 0

/-- The `Rank` enum of `ttdb.py`: rank of an array. -/
inductive Rank where
  | scalar
  | vector
  | matrix
deriving DecidableEq, Repr

/-- The integer value of each `Rank` member (`scalar = 0`, `vector = 1`,
`matrix = 2`). -/
def Rank.value : Rank → Nat
  | .scalar => 0
  | .vector => 1
  | .matrix => 2

/-- Python `Rank(n)`: enum lookup by value; `none` for n outside 0, 1, 2
(Python raises `ValueError`). -/
def Rank.ofValue (n : Nat) : Option Rank :=
  [Rank.scalar, Rank.vector, Rank.matrix].find? (fun r => r.value == n)

/-- The data a native `ttdb_type_t` token denotes: what the three native
accessors `ttdb_type__kind`, `ttdb_type__rank` and `ttdb_type__dim` return
for it. -/
structure TypeToken where
  kindStr : String
  rankVal : Nat
  dimVal : Nat
deriving DecidableEq, Repr

/-- `Type.kind` from `ttdb.py`:
`Kind(ttdb_type__kind(self._type).decode("utf-8"))`.  Enum-by-value
construction raises `ValueError` when the string matches no member. -/
def Typ.kind (t : TypeToken) : Except PyError Kind :=
  match Kind.ofValue t.kindStr with
  | some k => .ok k
  | none => .error (.valueError t.kindStr)

/-- `Type.rank` from `ttdb.py`: `Rank(ttdb_type__rank(self._type))`. -/
def Typ.rank (t : TypeToken) : Except PyError Rank :=
  match Rank.ofValue t.rankVal with
  | some r => .ok r
  | none => .error (.valueError (toString t.rankVal))

/-- `Type.dim` from `ttdb.py`: `ttdb_type__dim(self._type)`. -/
def Typ.dim (t : TypeToken) : Nat :=
  t.dimVal

/-! ## Error channel (`_Library.func` in `ttdb.py`, `__Library.func` in
`titsdk/lib.py`) -/

/-- What one native ABI call produces: its own return value, together with
what `ttdb__last_error()` returns right after it (`bytes | None` through a
`c_char_p` restype, embedded as `Option String`). -/
structure NativeOutcome (α : Type) where
  result : α
  last_error : Option String
deriving DecidableEq, Repr

/-- Python truthiness of the `bytes | None` last-error result: `None` and
the empty byte string `b""` are falsy, any non-empty string is truthy. -/
def truthy : Option String → Bool
  | none => false
  | some s => !s.isEmpty

/-- The `checked_func` closure built by `_Library.func`: call the native
function, then consult `last_error()`; if it is truthy, raise
`Error(error.decode("utf-8"))`, discarding the call's own return value;
otherwise return the result. -/
def checked_func {α : Type} (call : NativeOutcome α) : Except PyError α :=
  if truthy call.last_error then
    .error (.sdkError (call.last_error.getD ""))
  else
    .ok call.result

/-! ## Data model of the native engine objects

The engine behind the ABI is not part of the repository sources; the entity
structures below record the logical content the spec ascribes to each native
handle, and the `ttdb_*` functions on them are the native calls, modelled
from the spec where their behaviour is not visible in the binding. -/

/-- The logical content behind a native `ttdb_array_t` handle: the values
its native accessors return. -/
structure ArrayEnt where
  name : String
  size : Nat
  type : TypeToken
deriving DecidableEq, Repr

/-- The logical content behind a native `ttdb_dataset_t` handle: its arrays
in native order. -/
structure DatasetEnt where
  arrays : List ArrayEnt
deriving DecidableEq, Repr

/-- Modelled from the spec: `ttdb_dataset__find_array` performs
"linear or indexed lookup by exact name match" with find-first semantics for
duplicate names, and a miss "is a normal null/sentinel result with an empty
error channel" — it returns `null` with `last_error()` empty. -/
def ttdb_dataset__find_array (d : DatasetEnt) (name : String) :
    NativeOutcome (Option ArrayEnt) :=
  ⟨d.arrays.find? (fun a => a.name == name), none⟩

/-- `Dataset.find_array` from `ttdb.py` (identical to `Frame.find_array` in
`titsdk/ttdb.py`): run the checked native call, then
`return Array(array) if array is not None else None`. -/
def Dataset.find_array (d : DatasetEnt) (name : String) :
    Except PyError (Option ArrayEnt) :=
  match checked_func (ttdb_dataset__find_array d name) with
  | .error e => .error e
  | .ok (some a) => .ok (some a)
  | .ok none => .ok none

/-! ## `Array.data`: the decode operation -/

/-- The native calls `Array.data` can issue, in their source order:
`ttdb_array__size`, `ttdb_type__dim`, `ttdb_type__rank`, `ttdb_type__kind`
and `ttdb_array__read`. -/
inductive NativeCall where
  | size_call
  | dim_call
  | rank_call
  | kind_call
  | read_call
deriving DecidableEq, Repr

/-- Description of the NumPy buffer `np.empty(shape, dtype=...)` allocates
and `Array.data` returns.  `np.empty` is called without an `order` argument,
so the buffer uses the default C (row-major) layout. -/
structure NDArrayDesc where
  shape : List Nat
  dtype : NumpyDtype
  row_major : Bool
deriving DecidableEq, Repr

/-- `Array.data` from `ttdb.py`, step for step, paired with the trace of
native calls it issues before returning or raising:

```
shape = (self.size,) + (self.type.dim,) * self.type.rank.value
array = np.empty(shape, dtype=self.type.kind.to_numpy())
self.read(c_void_p(array.ctypes.data))
return array
```

The first line evaluates `size`, `dim`, then `rank` (which raises
`ValueError` on a rank value outside 0..2); tuple repetition makes the shape
`(size,) + (dim,) * rank`.  The second line evaluates `kind` (raising
`ValueError` on an unmatched kind string) and `to_numpy` (raising `KeyError`
when the kind has no dict entry, i.e. for `Kind.unknown`).  Only when all of
that succeeded is the native read invoked. -/
def Array.data (a : ArrayEnt) : List NativeCall × Except PyError NDArrayDesc :=
  let shape_calls : List NativeCall := [.size_call, .dim_call, .rank_call]
  match Typ.rank a.type with
  | .error e => (shape_calls, .error e)
  | .ok r =>
    let shape := a.size :: List.replicate r.value (Typ.dim a.type)
    match Typ.kind a.type with
    | .error e => (shape_calls ++ [.kind_call], .error e)
    | .ok k =>
      match k.to_numpy with
      | none => (shape_calls ++ [.kind_call], .error .keyError)
      | some dt =>
        (shape_calls ++ [.kind_call, .read_call], .ok ⟨shape, dt, true⟩)

/-! ## Iterator protocol -/

/-- The state of a native iterator handle: the elements it walks (in native
index order) and the current position.  Modelled from the spec: the native
`*_iter_next` calls yield elements "in ascending index order, followed by
exhaustion that remains stable under repeated `next()` calls". -/
structure IterSt (α : Type) where
  elems : List α
  pos : Nat
deriving DecidableEq, Repr

/-- Modelled from the spec: one native `*_iter_next` call.  While elements
remain it yields the element at the current position and advances; past the
end it returns the `null` sentinel.  Exhaustion sets no error
("iterator exhaustion is explicitly NOT an error"), so `last_error()` is
empty throughout normal iteration. -/
def iter_next {α : Type} (it : IterSt α) : NativeOutcome (Option α) × IterSt α :=
  match it.elems[it.pos]? with
  | some x => (⟨some x, none⟩, ⟨it.elems, it.pos + 1⟩)
  | none => (⟨none, none⟩, ⟨it.elems, it.pos + 1⟩)

/-- Outcome of one `__next__` call of the Python iterator classes
(`SeriesIter`, `FrameIter` / `TimeStepIter`, `ArrayIter`): an element, the
`StopIteration` sentinel, or a raised error. -/
inductive NextOutcome (α : Type) where
  | yielded (x : α)
  | stopIteration
  | raised (e : PyError)
deriving DecidableEq, Repr

/-- `__next__` from `ttdb.py`'s iterator classes: run the checked native
next call; `if (elem := ttdb_*_iter__next(self._iter)) is None: raise
StopIteration; return Wrapper(elem)`. -/
def binding_next {α : Type} (it : IterSt α) : NextOutcome α × IterSt α :=
  let (out, it') := iter_next it
  match checked_func out with
  | .error e => (.raised e, it')
  | .ok none => (.stopIteration, it')
  | .ok (some x) => (.yielded x, it')

/-- Iterate `binding_next` `n` times, collecting the yielded elements and
stopping at the first non-yield. -/
def binding_run {α : Type} (it : IterSt α) : Nat → List α × IterSt α
  | 0 => ([], it)
  | n + 1 =>
    match binding_next it with
    | (.yielded x, it') =>
      let (xs, itf) := binding_run it' n
      (x :: xs, itf)
    | (_, it') => ([], it')

/-- Apply `binding_next` `n` times, keeping only the final iterator state. -/
def binding_skip {α : Type} (it : IterSt α) : Nat → IterSt α
  | 0 => it
  | n + 1 => binding_skip (binding_next it).2 n

/-! ## Series, Storage, "last" accessors and iteration entry points -/

/-- The logical content behind a native `ttdb_time_step_t` / `ttdb_frame_t`
handle, as far as the claims need it: an opaque identifier stands in for the
frame's content. -/
structure TimeStepEnt where
  id : Nat
deriving DecidableEq, Repr

/-- The logical content behind a native `ttdb_series_t` handle: its frames
(time steps) in index order. -/
structure SeriesEnt where
  time_steps : List TimeStepEnt
deriving DecidableEq, Repr

/-- The logical content behind a native `ttdb_t` (storage) handle: its
series in index order. -/
structure StorageEnt where
  series : List SeriesEnt
deriving DecidableEq, Repr

/-- `Storage.num_series`: the native `ttdb__num_series` call, which by the
spec returns the number of series in the storage. -/
def Storage.num_series (st : StorageEnt) : Nat :=
  st.series.length

/-- `Series.num_time_steps` (`Series.num_frames` in `titsdk`): the native
`ttdb_series__num_time_steps` call. -/
def Series.num_time_steps (se : SeriesEnt) : Nat :=
  se.time_steps.length

/-- Modelled from the spec: `ttdb__last_series` returns the handle of
"the series with the greatest index" — the last entry of the storage's
series sequence (`null` would only arise for an empty storage). -/
def ttdb__last_series (st : StorageEnt) : Option SeriesEnt :=
  st.series.getLast?

/-- `Storage.last_series` from `ttdb.py`: wrap the native result in a
`Series` object. -/
def Storage.last_series (st : StorageEnt) : Option SeriesEnt :=
  ttdb__last_series st

/-- Modelled from the spec: `ttdb_series__last_time_step` returns the frame
"with the greatest index (not the greatest time)" — the last entry of the
series' frame sequence. -/
def ttdb_series__last_time_step (se : SeriesEnt) : Option TimeStepEnt :=
  se.time_steps.getLast?

/-- `Series.last_time_step` from `ttdb.py` (`Series.last_frame` in
`titsdk/ttdb.py`): wrap the native result. -/
def Series.last_time_step (se : SeriesEnt) : Option TimeStepEnt :=
  ttdb_series__last_time_step se

/-- Modelled from the spec: `ttdb__series` creates a series iterator at the
start of the storage's series sequence; `Storage.series` wraps it in a
`SeriesIter`. -/
def Storage.series (st : StorageEnt) : IterSt SeriesEnt :=
  ⟨st.series, 0⟩

/-- Modelled from the spec: `ttdb_series__time_steps` creates a frame
iterator at the start of the series' frame sequence; `Series.time_steps`
wraps it. -/
def Series.time_steps (se : SeriesEnt) : IterSt TimeStepEnt :=
  ⟨se.time_steps, 0⟩

/-- Modelled from the spec: `ttdb_dataset__arrays` creates an array iterator
at the start of the dataset's array sequence; `Dataset.arrays` wraps it. -/
def Dataset.arrays (d : DatasetEnt) : IterSt ArrayEnt :=
  ⟨d.arrays, 0⟩

/-! ## Fresh dataset views (`TimeStep.uniforms` / `TimeStep.varyings`) -/

/-- Handle-allocation state of the native engine: the next unused handle
value.  Every native call that creates a view object hands out the current
value and advances it, so distinct allocations get distinct handles. -/
structure Engine where
  next_handle : Nat
deriving DecidableEq, Repr

/-- Allocate a fresh native handle. -/
def Engine.alloc (e : Engine) : Nat × Engine :=
  (e.next_handle, ⟨e.next_handle + 1⟩)

/-- Modelled from the spec: `ttdb_time_step__uniforms` returns a fresh
dataset view handle on every call — the uniforms dataset is "obtained lazily
per accessor call (not cached)". -/
def ttdb_time_step__uniforms (_ts : TimeStepEnt) (e : Engine) : Nat × Engine :=
  e.alloc

/-- Modelled from the spec: `ttdb_time_step__varyings` likewise returns a
fresh dataset view handle on every call. -/
def ttdb_time_step__varyings (_ts : TimeStepEnt) (e : Engine) : Nat × Engine :=
  e.alloc

/-- A Python `Dataset` wrapper object: holds the native dataset handle it
owns (its `_dataset` field) and must be closed independently. -/
structure DatasetObj where
  _dataset : Nat
deriving DecidableEq, Repr

/-- `TimeStep.uniforms` from `ttdb.py`: every call runs
`Dataset(ttdb_time_step__uniforms(self._time_step))` — a new native call and
a new wrapper, with no memoization on the `TimeStep`. -/
def TimeStep.uniforms (ts : TimeStepEnt) (e : Engine) : DatasetObj × Engine :=
  let (h, e') := ttdb_time_step__uniforms ts e
  (⟨h⟩, e')

/-- `TimeStep.varyings` from `ttdb.py`: every call runs
`Dataset(ttdb_time_step__varyings(self._time_step))`, again uncached. -/
def TimeStep.varyings (ts : TimeStepEnt) (e : Engine) : DatasetObj × Engine :=
  let (h, e') := ttdb_time_step__varyings ts e
  (⟨h⟩, e')

/-! ## Opening a storage -/

/-- The file system as the engine sees it: the set of paths that name
readable, well-formed storage containers. -/
structure World where
  containers : List String
deriving DecidableEq, Repr

/-- Modelled from the spec: `ttdb__open` "fails with `NotFound`/`FormatError`
if the path is missing or unreadable/malformed": on a valid container path it
returns a storage handle with the error channel empty; otherwise it returns
the `null` handle, sets the last-error string, and holds no resources. -/
def ttdb__open (w : World) (path : String) : NativeOutcome (Option Nat) :=
  if path ∈ w.containers then
    ⟨some (w.containers.indexOf path), none⟩
  else
    ⟨none, some "NotFound"⟩

/-- A Python `Storage` wrapper object: holds the native storage handle. -/
structure StorageObj where
  _ttdb : Option Nat
deriving DecidableEq, Repr

/-- `open_storage` from `ttdb.py`:
`return Storage(ttdb__open(path.encode("utf-8")))`.  The native call goes
through `checked_func`, so when the error channel is set the `Error` is
raised before the `Storage` constructor runs — no wrapper object exists on
the failure path. -/
def open_storage (w : World) (path : String) : Except PyError StorageObj :=
  match checked_func (ttdb__open w path) with
  | .error e => .error e
  | .ok h => .ok ⟨h⟩

/-! ## Helper lemmas -/

/-- Every `Kind` member is in the `members` list. -/
lemma Kind.mem_members (k : Kind) : k ∈ Kind.members := by
  cases k <;> simp [Kind.members]

/-- One step of the Python-level iterator: yield the element at the current
position, or the `StopIteration` sentinel past the end; either way the
position advances. -/
lemma binding_next_eq {α : Type} (l : List α) (p : Nat) :
    binding_next ⟨l, p⟩ =
      match l[p]? with
      | some x => (.yielded x, ⟨l, p + 1⟩)
      | none => (.stopIteration, ⟨l, p + 1⟩) := by
  cases h : l[p]? <;>
    simp [binding_next, iter_next, h, checked_func, truthy]

/-- Running the iterator to the end of its element list yields exactly the
remaining suffix, in order, and leaves the position at the list's length. -/
lemma binding_run_all {α : Type} (l : List α) :
    ∀ n p, p + n = l.length →
      binding_run ⟨l, p⟩ n = (l.drop p, ⟨l, l.length⟩) := by
  intro n
  induction n with
  | zero =>
    intro p hp
    have hp' : p = l.length := by omega
    subst hp'
    simp [binding_run, List.drop_length]
  | succ n ih =>
    intro p hp
    have hlt : p < l.length := by omega
    have hget : l[p]? = some l[p] := List.getElem?_eq_getElem hlt
    have hdrop : l.drop p = l[p] :: l.drop (p + 1) :=
      List.drop_eq_getElem_cons hlt
    rw [binding_run, binding_next_eq, hget]
    simp only []
    rw [ih (p + 1) (by omega), hdrop]

/-- Skipping `n` `next` calls advances the position by `n` and never touches
the element list. -/
lemma binding_skip_eq {α : Type} (l : List α) (p : Nat) :
    ∀ n, binding_skip (⟨l, p⟩ : IterSt α) n = ⟨l, p + n⟩ := by
  intro n
  induction n generalizing p with
  | zero => simp [binding_skip]
  | succ n ih =>
    have hst : (binding_next (⟨l, p⟩ : IterSt α)).2 = ⟨l, p + 1⟩ := by
      cases h : l[p]? <;> simp [binding_next_eq, h]
    simp [binding_skip, hst, ih (p + 1)]
    omega

/-! ## Claims -/

/-- C1: for every Array `a` with kind `k` (one of the ten numeric kinds),
rank `r` (0, 1 or 2) and dimension `d`, `Array.data` returns a buffer of
shape `(a.size,) + (d,) * r.value` — rank 0 a flat vector of `size` scalars,
rank 1 `size` rows of `d` scalars, rank 2 `size` row-major `d×d` matrices —
whose element dtype is the NumPy type mapped 1:1 from `k`, of width
`element_width k`. -/
theorem C1_array_data_shape_dtype (a : ArrayEnt) (k : Kind) (r : Rank)
    (hk : Kind.ofValue a.type.kindStr = some k) (hku : k ≠ Kind.unknown)
    (hr : Rank.ofValue a.type.rankVal = some r) :
    ∃ dt : NumpyDtype, k.to_numpy = some dt ∧
      dt.itemsize = element_width k ∧
      (Array.data a).2 =
        .ok ⟨a.size :: List.replicate r.value a.type.dimVal, dt, true⟩ := by
  obtain ⟨dt, hdt⟩ : ∃ dt, k.to_numpy = some dt := by
    cases k <;> simp_all [Kind.to_numpy]
  refine ⟨dt, hdt, ?_, ?_⟩
  · simp [element_width, hdt]
  · simp only [Array.data, Typ.rank, Typ.kind, Typ.dim, hk, hr, hdt]

/-- C1 witness: a concrete rank-1 float32 array of 100 rows of 2 scalars
decodes to shape `(100, 2)` with the 4-byte float32 dtype. -/
theorem C1_witness :
    ∃ dt : NumpyDtype, Kind.float32.to_numpy = some dt ∧
      dt.itemsize = element_width Kind.float32 ∧
      (Array.data ⟨"r", 100, ⟨"float32_t", 1, 2⟩⟩).2 =
        .ok ⟨100 :: List.replicate Rank.vector.value 2, dt, true⟩ :=
  C1_array_data_shape_dtype ⟨"r", 100, ⟨"float32_t", 1, 2⟩⟩ Kind.float32
    Rank.vector (by decide) (by decide) (by decide)

/-- C2: every ABI call goes through `checked_func`, which consults the
last-error channel right after the call; a non-null, non-empty error string
is a failure raised as `Error` carrying that string, whatever the call's own
return value was (even a seemingly valid handle); a null or empty channel
means the call's result is returned as success. -/
theorem C2_error_channel (α : Type) (call : NativeOutcome α) :
    (∀ s : String, call.last_error = some s → s ≠ "" →
      checked_func call = .error (.sdkError s)) ∧
    (call.last_error = none ∨ call.last_error = some "" →
      checked_func call = .ok call.result) := by
  constructor
  · intro s hs hne
    have : s.isEmpty = false := by
      cases h : s.isEmpty
      · rfl
      · exact absurd ((String.isEmpty_iff s).mp h) hne
    simp [checked_func, truthy, hs, this]
  · rintro (h | h)
    · simp [checked_func, truthy, h]
    · simp [checked_func, truthy, h]
      decide

/-- C2 witness: a call that returned the seemingly valid handle `7` while
the error channel holds `"boom"` is raised as `Error("boom")`. -/
theorem C2_witness :
    checked_func (⟨7, some "boom"⟩ : NativeOutcome Nat) =
      .error (.sdkError "boom") :=
  (C2_error_channel Nat ⟨7, some "boom"⟩).1 "boom" rfl (by decide)

/-- C3: `find_array` on a name matching no array returns the not-found
sentinel (`None`) with an empty error channel — no raise, no failure; and
iterator exhaustion is likewise the normal `StopIteration` sentinel with an
empty error channel, not an error. -/
theorem C3_find_array_miss (d : DatasetEnt) (n : String)
    (h : ∀ a ∈ d.arrays, a.name ≠ n) :
    Dataset.find_array d n = .ok none ∧
    (ttdb_dataset__find_array d n).last_error = none ∧
    (∀ it : IterSt ArrayEnt, it.elems.length ≤ it.pos →
      (binding_next it).1 = .stopIteration ∧
        (iter_next it).1.last_error = none) := by
  have hfind : d.arrays.find? (fun a => a.name == n) = none := by
    rw [List.find?_eq_none]
    intro a ha
    simp [h a ha]
  refine ⟨?_, ?_, ?_⟩
  · simp [Dataset.find_array, ttdb_dataset__find_array, hfind, checked_func,
      truthy]
  · simp [ttdb_dataset__find_array]
  · intro it hle
    obtain ⟨l, p⟩ := it
    have hget : l[p]? = none := by
      simp only [List.getElem?_eq_none_iff]
      simpa using hle
    constructor
    · simp [binding_next_eq, hget]
    · simp [iter_next, hget]

/-- C3 witness: looking up `"missing"` in a dataset holding only `"r"`
returns `None` as success, with the error channel empty; an exhausted array
iterator returns the sentinel with the error channel empty. -/
theorem C3_witness :
    Dataset.find_array ⟨[⟨"r", 100, ⟨"float32_t", 1, 2⟩⟩]⟩ "missing" =
        .ok none ∧
    (ttdb_dataset__find_array ⟨[⟨"r", 100, ⟨"float32_t", 1, 2⟩⟩]⟩
        "missing").last_error = none ∧
    (∀ it : IterSt ArrayEnt, it.elems.length ≤ it.pos →
      (binding_next it).1 = .stopIteration ∧
        (iter_next it).1.last_error = none) :=
  C3_find_array_miss ⟨[⟨"r", 100, ⟨"float32_t", 1, 2⟩⟩]⟩ "missing"
    (by decide)

/-- C4 counterexample: the claim says a kind string not naming one of the
ten numeric kinds maps to the distinguished unknown kind rather than
raising; but on the kind string `"float16_t"` the accessor raises
`ValueError` (Python `Kind("float16_t")` matches no enum member) and does
not return `Kind.unknown`. -/
theorem C4_counterexample :
    Typ.kind ⟨"float16_t", 0, 0⟩ ≠ .ok Kind.unknown ∧
    Typ.kind ⟨"float16_t", 0, 0⟩ = .error (.valueError "float16_t") := by
  have h : Typ.kind ⟨"float16_t", 0, 0⟩ =
      .error (.valueError "float16_t") := rfl
  refine ⟨?_, h⟩
  rw [h]
  simp

/-- C4 amended: the kind accessor is a pure mapping from the engine's kind
string to the `Kind` enumeration by exact value match: each of the eleven
enum value strings (the ten numeric kinds plus the distinguished string
`"unknown"`, which maps to the unknown kind) yields its member; any other
kind string raises `ValueError` rather than mapping to the unknown kind. -/
theorem C4_kind_accessor (t : TypeToken) :
    (∃ k : Kind, t.kindStr = k.value ∧ Typ.kind t = .ok k) ∨
    ((∀ k : Kind, t.kindStr ≠ k.value) ∧
      Typ.kind t = .error (.valueError t.kindStr)) := by
  cases hf : Kind.ofValue t.kindStr with
  | some k =>
    left
    have hf' : Kind.members.find? (fun x => x.value == t.kindStr) = some k :=
      hf
    have hbeq := List.find?_some hf'
    refine ⟨k, (eq_of_beq hbeq).symm, ?_⟩
    simp [Typ.kind, hf]
  | none =>
    right
    have hf' : Kind.members.find? (fun x => x.value == t.kindStr) = none :=
      hf
    have hnone := List.find?_eq_none.mp hf'
    refine ⟨?_, by simp [Typ.kind, hf]⟩
    intro k hk
    exact hnone k (Kind.mem_members k) (by simp [hk])

/-- C4 amended, witness: the engine's distinguished `"unknown"` kind string
maps to `Kind.unknown`. -/
theorem C4_witness :
    (∃ k : Kind, "unknown" = k.value ∧
      Typ.kind ⟨"unknown", 0, 0⟩ = .ok k) ∨
    ((∀ k : Kind, "unknown" ≠ k.value) ∧
      Typ.kind ⟨"unknown", 0, 0⟩ = .error (.valueError "unknown")) :=
  C4_kind_accessor ⟨"unknown", 0, 0⟩

/-- C5: for a storage with at least one series, `last_series` denotes the
series at index `num_series - 1` (the greatest index); for a series with at
least one frame, `last_time_step` (`last_frame` in `titsdk`) denotes the
frame at index `num_time_steps - 1`. -/
theorem C5_last_is_highest_index (st : StorageEnt) (se : SeriesEnt)
    (hs : 1 ≤ Storage.num_series st) (hf : 1 ≤ Series.num_time_steps se) :
    (∃ x, st.series[Storage.num_series st - 1]? = some x ∧
      Storage.last_series st = some x) ∧
    (∃ y, se.time_steps[Series.num_time_steps se - 1]? = some y ∧
      Series.last_time_step se = some y) := by
  constructor
  · have hlt : Storage.num_series st - 1 < st.series.length := by
      simp only [Storage.num_series] at hs ⊢
      omega
    refine ⟨st.series[Storage.num_series st - 1], List.getElem?_eq_getElem hlt, ?_⟩
    rw [Storage.last_series, ttdb__last_series, List.getLast?_eq_getElem?]
    exact List.getElem?_eq_getElem hlt
  · have hlt : Series.num_time_steps se - 1 < se.time_steps.length := by
      simp only [Series.num_time_steps] at hf ⊢
      omega
    refine ⟨se.time_steps[Series.num_time_steps se - 1],
      List.getElem?_eq_getElem hlt, ?_⟩
    rw [Series.last_time_step, ttdb_series__last_time_step,
      List.getLast?_eq_getElem?]
    exact List.getElem?_eq_getElem hlt

/-- C5 witness: on a storage of two series the last series is the one at
index 1, and on a series of three frames the last frame is the one at
index 2. -/
theorem C5_witness :
    1 ≤ Storage.num_series ⟨[⟨[⟨0⟩]⟩, ⟨[⟨1⟩]⟩]⟩ ∧
    1 ≤ Series.num_time_steps ⟨[⟨0⟩, ⟨1⟩, ⟨2⟩]⟩ ∧
    ((∃ x, (⟨[⟨[⟨0⟩]⟩, ⟨[⟨1⟩]⟩]⟩ : StorageEnt).series[
        Storage.num_series ⟨[⟨[⟨0⟩]⟩, ⟨[⟨1⟩]⟩]⟩ - 1]? = some x ∧
      Storage.last_series ⟨[⟨[⟨0⟩]⟩, ⟨[⟨1⟩]⟩]⟩ = some x) ∧
    (∃ y, (⟨[⟨0⟩, ⟨1⟩, ⟨2⟩]⟩ : SeriesEnt).time_steps[
        Series.num_time_steps ⟨[⟨0⟩, ⟨1⟩, ⟨2⟩]⟩ - 1]? = some y ∧
      Series.last_time_step ⟨[⟨0⟩, ⟨1⟩, ⟨2⟩]⟩ = some y)) :=
  ⟨by decide, by decide,
    C5_last_is_highest_index ⟨[⟨[⟨0⟩]⟩, ⟨[⟨1⟩]⟩]⟩ ⟨[⟨0⟩, ⟨1⟩, ⟨2⟩]⟩
      (by decide) (by decide)⟩

/-- C6: fully iterating `Storage.series` yields exactly `num_series`
elements, in ascending index order (the yielded list is the storage's series
list itself), after which the next call is the exhaustion sentinel; the same
holds for frame iteration over a series and array iteration over a
dataset. -/
theorem C6_full_iteration (st : StorageEnt) (se : SeriesEnt)
    (d : DatasetEnt) :
    (binding_run (Storage.series st) (Storage.num_series st)).1 =
        st.series ∧
    (binding_next
        (binding_run (Storage.series st) (Storage.num_series st)).2).1 =
      .stopIteration ∧
    (binding_run (Series.time_steps se) (Series.num_time_steps se)).1 =
        se.time_steps ∧
    (binding_next
        (binding_run (Series.time_steps se)
          (Series.num_time_steps se)).2).1 = .stopIteration ∧
    (binding_run (Dataset.arrays d) d.arrays.length).1 = d.arrays ∧
    (binding_next (binding_run (Dataset.arrays d) d.arrays.length).2).1 =
      .stopIteration := by
  have hs := binding_run_all st.series (Storage.num_series st) 0
    (by simp [Storage.num_series])
  have hf := binding_run_all se.time_steps (Series.num_time_steps se) 0
    (by simp [Series.num_time_steps])
  have ha := binding_run_all d.arrays d.arrays.length 0 (by simp)
  have hend : ∀ {α : Type} (l : List α),
      (binding_next (⟨l, l.length⟩ : IterSt α)).1 = .stopIteration := by
    intro α l
    have : l[l.length]? = none := by simp
    simp [binding_next_eq, this]
  refine ⟨?_, ?_, ?_, ?_, ?_, ?_⟩
  · simp [Storage.series, hs]
  · simp [Storage.series, hs, hend]
  · simp [Series.time_steps, hf]
  · simp [Series.time_steps, hf, hend]
  · simp [Dataset.arrays, ha]
  · simp [Dataset.arrays, ha, hend]

/-- C7: once a `next` call has returned the no-more-elements sentinel
(surfaced as `StopIteration`), the iterator is terminally exhausted — after
any number of further `next` calls the outcome is still the sentinel, never
an error and never a further element. -/
theorem C7_exhaustion_terminal {α : Type} (it : IterSt α)
    (h : (binding_next it).1 = .stopIteration) :
    ∀ n : Nat, (binding_next (binding_skip it n)).1 = .stopIteration := by
  obtain ⟨l, p⟩ := it
  have hget : l[p]? = none := by
    cases hg : l[p]? with
    | none => rfl
    | some x =>
      rw [binding_next_eq, hg] at h
      exact absurd h (by simp)
  have hle : l.length ≤ p := by
    simpa using List.getElem?_eq_none_iff.mp hget
  intro n
  rw [binding_skip_eq]
  have : l[p + n]? = none := by
    simp only [List.getElem?_eq_none_iff]
    omega
  simp [binding_next_eq, this]

/-- C7 witness: an exhausted series iterator keeps returning the sentinel
after three further `next` calls. -/
theorem C7_witness :
    (binding_next
      (binding_skip (⟨[], 0⟩ : IterSt SeriesEnt) 3)).1 = .stopIteration :=
  C7_exhaustion_terminal ⟨[], 0⟩ (by decide) 3

/-- C8: the uniforms accessor and the varyings accessor each construct a
fresh, independently owned `Dataset` wrapper on every call, with no
memoization inside the frame: two successive calls to the same accessor
yield wrappers holding distinct native dataset handles. -/
theorem C8_fresh_dataset_views (ts : TimeStepEnt) (e : Engine) :
    ((TimeStep.uniforms ts e).1)._dataset ≠
      ((TimeStep.uniforms ts (TimeStep.uniforms ts e).2).1)._dataset ∧
    ((TimeStep.varyings ts e).1)._dataset ≠
      ((TimeStep.varyings ts (TimeStep.varyings ts e).2).1)._dataset := by
  constructor <;>
    simp [TimeStep.uniforms, TimeStep.varyings, ttdb_time_step__uniforms,
      ttdb_time_step__varyings, Engine.alloc]

/-- C9: opening a path that names no readable, well-formed storage container
raises `Error` with the error-channel string, and no `Storage` wrapper is
constructed on the failure path — the result is never `.ok`. -/
theorem C9_open_failure (w : World) (path : String)
    (h : path ∉ w.containers) :
    open_storage w path = .error (.sdkError "NotFound") ∧
    ∀ st : StorageObj, open_storage w path ≠ .ok st := by
  have htr : truthy (some "NotFound") = true := rfl
  have hres : open_storage w path = .error (.sdkError "NotFound") := by
    simp [open_storage, ttdb__open, h, checked_func, htr]
  refine ⟨hres, ?_⟩
  intro st
  rw [hres]
  simp

/-- C9 witness: opening `"missing"` against a file system with no storage
containers fails with `NotFound` and yields no `Storage`. -/
theorem C9_witness :
    open_storage ⟨[]⟩ "missing" = .error (.sdkError "NotFound") ∧
    ∀ st : StorageObj, open_storage ⟨[]⟩ "missing" ≠ .ok st :=
  C9_open_failure ⟨[]⟩ "missing" (by decide)

/-- C10: for an array whose type's kind string is the distinguished
`"unknown"` (and whose rank value is a valid 0, 1 or 2), `Array.data` raises
`KeyError` from the kind-to-NumPy mapping before the native read is invoked:
the outcome is the error and the call trace contains no read call. -/
theorem C10_unknown_kind_raises_before_read (a : ArrayEnt) (r : Rank)
    (hk : a.type.kindStr = "unknown")
    (hr : Rank.ofValue a.type.rankVal = some r) :
    (Array.data a).2 = .error .keyError ∧
    NativeCall.read_call ∉ (Array.data a).1 := by
  have hkind : Typ.kind a.type = .ok Kind.unknown := by
    simp only [Typ.kind, hk]
    rfl
  have hdata : Array.data a =
      ([.size_call, .dim_call, .rank_call] ++ [.kind_call],
        .error .keyError) := by
    simp only [Array.data, Typ.rank, hr, hkind, Kind.to_numpy]
  rw [hdata]
  exact ⟨rfl, by decide⟩

/-- C10 witness: a 5-element array of unknown kind, scalar rank, raises
`KeyError` with no read call issued. -/
theorem C10_witness :
    (Array.data ⟨"x", 5, ⟨"unknown", 0, 0⟩⟩).2 = .error .keyError ∧
    NativeCall.read_call ∉ (Array.data ⟨"x", 5, ⟨"unknown", 0, 0⟩⟩).1 :=
  C10_unknown_kind_raises_before_read ⟨"x", 5, ⟨"unknown", 0, 0⟩⟩
    Rank.scalar rfl (by decide)

end TTDB
